import Mathlib

/-!
Verification of the real-time metrics core of the admybrand-insights-dashboard
repository: the synthetic metrics generator (src/lib/export-utils.ts,
generateVariation and generateMetricsData), the mock API (MockAPI.fetchMetrics,
delay), and the polling hook (useRealTimeMetrics: fetchMetrics, startPolling,
stopPolling, mount/cleanup).

The embedding is shallow: JavaScript numbers are modelled as rationals, and
each call to Math.random() is modelled as an explicit rational draw in the
half-open interval [0, 1).  The hook state (the metricsData useState cell,
the intervalRef and mountedRef refs) is modelled as an explicit record, and
the browser timer facility (setInterval / clearInterval) as an environment
holding the list of armed interval timers.
-/

namespace Dashboard

/-- Trend marker of a metric, from the Metric interface
(trend: "up" | "down" | "neutral"). -/
inductive Trend where
  | up
  | down
  | neutral
deriving DecidableEq, Repr

/-- One metric record as produced by generateMetricsData
(the Omit of Metric and icon).  The two formatted display strings
(value, change: locale-dependent Intl.NumberFormat / toFixed output)
are presentation-layer text that no claim inspects and are not modelled;
the remaining fields are translated directly. -/
structure Metric where
  title : String
  trend : Trend
  rawValue : ℚ
  changePercent : ℚ
deriving DecidableEq, Repr

/-- Baseline metric constants (const baseMetrics in export-utils.ts). -/
structure BaseMetrics where
  revenue : ℚ
  users : ℚ
  conversions : ℚ
  growthPercent : ℚ

/-- const baseMetrics = \x7b revenue: 54231, users: 14432, conversions: 2847,
growthPercent: 24.8 \x7d. -/
def baseMetrics : BaseMetrics :=
  { revenue := 54231
    users := 14432
    conversions := 2847
    growthPercent := 24.8 }

/-- generateVariation(baseValue, variationPercent): with r the Math.random()
draw, variation = (r - 0.5) * 2 * (variationPercent / 100) and the result is
Math.max(0, baseValue * (1 + variation)). -/
def generateVariation (baseValue : ℚ) (variationPercent : ℚ) (r : ℚ) : ℚ :=
  let variation := (r - 0.5) * 2 * (variationPercent / 100)
  max 0 (baseValue * (1 + variation))

/-- The eight Math.random() draws consumed by one call of
generateMetricsData, in source order. -/
structure Draws where
  revenue : ℚ
  users : ℚ
  conversions : ℚ
  growthPercent : ℚ
  revenueChange : ℚ
  usersChange : ℚ
  conversionsChange : ℚ
  growthChange : ℚ
deriving DecidableEq, Repr

/-- A value produced by Math.random() lies in the half-open unit
interval [0, 1). -/
abbrev IsUnit (r : ℚ) : Prop := 0 ≤ r ∧ r < 1

/-- All eight draws of one generateMetricsData call are Math.random()
values. -/
abbrev Draws.Valid (d : Draws) : Prop :=
  IsUnit d.revenue ∧ IsUnit d.users ∧ IsUnit d.conversions ∧
  IsUnit d.growthPercent ∧ IsUnit d.revenueChange ∧ IsUnit d.usersChange ∧
  IsUnit d.conversionsChange ∧ IsUnit d.growthChange

/-- generateMetricsData(): varies each baseline (Revenue 3%, Users 4%,
Conversions 6%, Growth 8%), generates the month-over-month change
percentages from the fixed change baselines (12.5 at 20%, 8.2 at 25%,
15.3 at 30%, 4.1 at 40%), and assembles the four metric records in
source order with trend = change >= 0 ? "up" : "down". -/
def generateMetricsData (d : Draws) : List Metric :=
  let revenue := generateVariation baseMetrics.revenue 3 d.revenue
  let users := generateVariation baseMetrics.users 4 d.users
  let conversions := generateVariation baseMetrics.conversions 6 d.conversions
  let growthPercent := generateVariation baseMetrics.growthPercent 8 d.growthPercent
  let revenueChange := generateVariation 12.5 20 d.revenueChange
  let usersChange := generateVariation 8.2 25 d.usersChange
  let conversionsChange := generateVariation 15.3 30 d.conversionsChange
  let growthChange := generateVariation 4.1 40 d.growthChange
  [ { title := "Revenue"
      trend := if 0 ≤ revenueChange then Trend.up else Trend.down
      rawValue := revenue
      changePercent := revenueChange }
  , { title := "Users"
      trend := if 0 ≤ usersChange then Trend.up else Trend.down
      rawValue := users
      changePercent := usersChange }
  , { title := "Conversions"
      trend := if 0 ≤ conversionsChange then Trend.up else Trend.down
      rawValue := conversions
      changePercent := conversionsChange }
  , { title := "Growth %"
      trend := if 0 ≤ growthChange then Trend.up else Trend.down
      rawValue := growthPercent
      changePercent := growthChange } ]

/-- Snapshot state exposed by the hook (interface MetricsUpdate):
timestamp, metrics array, isLoading flag, optional error message.
The optional error string (error?: string) is an Option. -/
structure MetricsUpdate where
  timestamp : ℕ
  metrics : List Metric
  isLoading : Bool
  error : Option String
deriving DecidableEq, Repr

/-- delay(ms): a Promise that setTimeout resolves after ms milliseconds;
it has no rejection path, hence always Except.ok. -/
def delay (ms : ℚ) : Except String Unit := Except.ok ()

namespace MockAPI

/-- MockAPI.fetchMetrics(): awaits delay(100 + Math.random() * 200)
(latencyR is that Math.random() draw) and returns generateMetricsData().
Modelled in the Except monad because the hook wraps the call in
try/catch. -/
def fetchMetrics (latencyR : ℚ) (d : Draws) : Except String (List Metric) := do
  let _ ← delay (100 + latencyR * 200)
  pure (generateMetricsData d)

end MockAPI

/-- The mutable cells of useRealTimeMetrics: the metricsData useState
cell, intervalRef.current (the armed interval timer id, if any) and
mountedRef.current. -/
structure HookState where
  metricsData : MetricsUpdate
  intervalId : Option ℕ
  mounted : Bool
deriving DecidableEq, Repr

/-- The browser timer environment: the interval timers currently armed
(id and period in ms), a fresh-id counter, and a count of fetchMetrics
invocations issued so far (observation for the polling claims). -/
structure PollEnv where
  activeTimers : List (ℕ × ℕ)
  nextId : ℕ
  fetchesIssued : ℕ
deriving DecidableEq, Repr

/-- clearInterval(id): removes the timer with that id from the armed
set. -/
def clearIntervalE (id : ℕ) (env : PollEnv) : PollEnv :=
  { env with activeTimers := env.activeTimers.filter (fun t => t.1 ≠ id) }

/-- setInterval(fetchMetrics, periodMs): arms a fresh recurring timer and
returns its id. -/
def setIntervalE (periodMs : ℕ) (env : PollEnv) : PollEnv × ℕ :=
  ({ env with
      activeTimers := env.activeTimers ++ [(env.nextId, periodMs)]
      nextId := env.nextId + 1 },
   env.nextId)

/-- The loading-phase update of fetchMetrics:
setMetricsData(prev => (...prev, isLoading: true, error: undefined)). -/
def fetchStart (prev : MetricsUpdate) : MetricsUpdate :=
  { prev with isLoading := true, error := none }

/-- The success-phase update of fetchMetrics: setMetricsData with a wholly
new snapshot (timestamp: Date.now(), metrics, isLoading: false,
error: undefined). -/
def fetchSuccess (now : ℕ) (metrics : List Metric) : MetricsUpdate :=
  { timestamp := now
    metrics := metrics
    isLoading := false
    error := none }

/-- The catch-phase update of fetchMetrics:
setMetricsData(prev => (...prev, isLoading: false, error: message)). -/
def fetchFailure (msg : String) (prev : MetricsUpdate) : MetricsUpdate :=
  { prev with isLoading := false, error := some msg }

/-- Synchronous prefix of the fetchMetrics callback, up to the await:
if (!mountedRef.current) return; then the loading-phase setMetricsData. -/
def fetchMetricsBegin (s : HookState) : HookState :=
  if s.mounted then { s with metricsData := fetchStart s.metricsData } else s

/-- Continuation of the fetchMetrics callback when the awaited
MockAPI.fetchMetrics settles with outcome: both the success and the catch
branch update state only under an if (mountedRef.current) guard. -/
def fetchMetricsResolve (outcome : Except String (List Metric)) (now : ℕ)
    (s : HookState) : HookState :=
  if s.mounted then
    match outcome with
    | Except.ok ms => { s with metricsData := fetchSuccess now ms }
    | Except.error msg => { s with metricsData := fetchFailure msg s.metricsData }
  else s

/-- One whole fetch cycle in which the mounted flag does not change
between the loading phase and the resolution. -/
def fetchCycle (outcome : Except String (List Metric)) (now : ℕ)
    (s : HookState) : HookState :=
  fetchMetricsResolve outcome now (fetchMetricsBegin s)

/-- Default polling interval of useRealTimeMetrics (intervalMs parameter
default). -/
def defaultIntervalMs : ℕ := 5000

/-- startPolling(): if (intervalRef.current) clearInterval(it); then an
immediate fetchMetrics() (whose synchronous loading phase runs now, and
which counts as one issued fetch); then intervalRef.current =
setInterval(fetchMetrics, intervalMs). -/
def startPolling (intervalMs : ℕ) (env : PollEnv) (s : HookState) :
    PollEnv × HookState :=
  let env1 := match s.intervalId with
    | some id => clearIntervalE id env
    | none => env
  let s1 := fetchMetricsBegin s
  let env2 := { env1 with fetchesIssued := env1.fetchesIssued + 1 }
  let p := setIntervalE intervalMs env2
  (p.1, { s1 with intervalId := some p.2 })

/-- stopPolling(): if (intervalRef.current) clearInterval(it);
intervalRef.current = null.  The mounted flag is untouched. -/
def stopPolling (env : PollEnv) (s : HookState) : PollEnv × HookState :=
  match s.intervalId with
  | some id => (clearIntervalE id env, { s with intervalId := none })
  | none => (env, s)

/-- The mount effect cleanup: mountedRef.current = false; stopPolling(). -/
def cleanup (env : PollEnv) (s : HookState) : PollEnv × HookState :=
  stopPolling env { s with mounted := false }

/-- Initial metricsData of useState: timestamp Date.now(), metrics [],
isLoading true, error undefined. -/
def initialMetricsData (t0 : ℕ) : MetricsUpdate :=
  { timestamp := t0
    metrics := []
    isLoading := true
    error := none }

/-- Hook state right after mount: initial useState value, no armed
interval yet, mountedRef.current = true. -/
def initHookState (t0 : ℕ) : HookState :=
  { metricsData := initialMetricsData t0
    intervalId := none
    mounted := true }

/-- Timer environment before any timer is armed. -/
def initPollEnv : PollEnv :=
  { activeTimers := []
    nextId := 0
    fetchesIssued := 0 }

/-- Events that can act on the hook during a run: the synchronous phase
of a fetch, the resolution of a pending MockAPI.fetchMetrics call (with
its latency and generator draws), startPolling, stopPolling, and the
unmount cleanup. -/
inductive Step where
  | begin
  | resolve (latencyR : ℚ) (d : Draws) (now : ℕ)
  | startP (intervalMs : ℕ)
  | stopP
  | dispose
deriving Repr

/-- Small-step interpreter of a run of the hook against the mock API:
every resolution carries the result of MockAPI.fetchMetrics. -/
def stepRun (p : PollEnv × HookState) (st : Step) : PollEnv × HookState :=
  match st with
  | Step.begin => (p.1, fetchMetricsBegin p.2)
  | Step.resolve latencyR d now =>
      (p.1, fetchMetricsResolve (MockAPI.fetchMetrics latencyR d) now p.2)
  | Step.startP i => startPolling i p.1 p.2
  | Step.stopP => stopPolling p.1 p.2
  | Step.dispose => cleanup p.1 p.2

/-- Invariant tying the env to the hook state: the armed interval timers
are exactly the one recorded in intervalRef (if any), and all armed ids
are below the fresh-id counter. -/
abbrev TimersOk (env : PollEnv) (s : HookState) : Prop :=
  (match s.intervalId with
   | some id => env.activeTimers.map Prod.fst = [id]
   | none => env.activeTimers = []) ∧
  ∀ t ∈ env.activeTimers, t.1 < env.nextId

/-! ## Concrete data used in witnesses and counterexamples -/

/-- A concrete set of draws: every Math.random() value is one half. -/
def dHalf : Draws :=
  { revenue := 1/2
    users := 1/2
    conversions := 1/2
    growthPercent := 1/2
    revenueChange := 1/2
    usersChange := 1/2
    conversionsChange := 1/2
    growthChange := 1/2 }

/-- The Revenue metric the generator produces on the all-halves draw
(zero variation everywhere). -/
def revenueHalf : Metric := Metric.mk "Revenue" Trend.up 54231 12.5

/-- A mounted hook state whose snapshot carries an error message from a
previous failed cycle. -/
def sErr : HookState :=
  { metricsData :=
      { timestamp := 0
        metrics := []
        isLoading := false
        error := some "Failed to fetch metrics" }
    intervalId := none
    mounted := true }

/-- A polling hook state: mounted, fresh snapshot, timer 0 armed. -/
def sPolling : HookState :=
  { metricsData := initialMetricsData 0
    intervalId := some 0
    mounted := true }

/-! ## Helper lemmas -/

theorem dHalf_valid : dHalf.Valid := by
  norm_num [dHalf, Draws.Valid, IsUnit]

theorem generateVariation_nonneg (b p r : ℚ) : 0 ≤ generateVariation b p r :=
  le_max_left 0 _

theorem generateVariation_lower (b p r : ℚ) (hb : 0 ≤ b) (hp : 0 ≤ p)
    (hr : 0 ≤ r) : b * (1 - p / 100) ≤ generateVariation b p r := by
  have hx : b * (1 - p / 100) ≤ b * (1 + (r - 0.5) * 2 * (p / 100)) := by
    nlinarith [mul_nonneg (mul_nonneg hb hp) hr]
  calc b * (1 - p / 100) ≤ b * (1 + (r - 0.5) * 2 * (p / 100)) := hx
    _ ≤ max 0 (b * (1 + (r - 0.5) * 2 * (p / 100))) := le_max_right 0 _

theorem generateVariation_upper (b p r : ℚ) (hb : 0 ≤ b) (hp : 0 ≤ p)
    (hr : r < 1) : generateVariation b p r ≤ b * (1 + p / 100) := by
  have hB : (0 : ℚ) ≤ b * (1 + p / 100) := by nlinarith
  have hx : b * (1 + (r - 0.5) * 2 * (p / 100)) ≤ b * (1 + p / 100) := by
    nlinarith [mul_nonneg hb hp]
  exact max_le hB hx

theorem generateVariation_pos (b p r : ℚ) (hb : 0 < b) (hp0 : 0 ≤ p)
    (hp : p < 100) (hr : 0 ≤ r) : 0 < generateVariation b p r := by
  have hx : 0 < b * (1 + (r - 0.5) * 2 * (p / 100)) := by
    nlinarith [mul_nonneg (mul_nonneg hb.le hp0) hr,
      mul_pos hb (show (0 : ℚ) < 1 - p / 100 by linarith)]
  exact lt_of_lt_of_le hx (le_max_right 0 _)

/-! ## Claims about the metrics generator -/

/-- C1 counterexample: contrary to the claim, no random draw makes any
changePercent negative — the change percentages also pass through the
Math.max(0, ...) clamp of generateVariation, and their bands never reach
zero anyway. -/
theorem C1_counterexample :
    ¬ ∃ d : Draws, d.Valid ∧ ∃ m ∈ generateMetricsData d, m.changePercent < 0 := by
  rintro ⟨d, -, m, hm, hneg⟩
  simp only [generateMetricsData, List.mem_cons, List.not_mem_nil, or_false] at hm
  rcases hm with rfl | rfl | rfl | rfl <;>
    exact absurd hneg (not_lt.mpr (le_max_left 0 _))

/-- C1 (amended): each changePercent is produced by generateVariation
against its fixed change baseline (Revenue 12.5 at 20%, Users 8.2 at 25%,
Conversions 15.3 at 30%, Growth 4.1 at 40%), and — being clamped like
every variation, with bands that stay above zero — it is strictly
positive for every valid draw, never negative. -/
theorem C1_amended_changePercent (d : Draws) (h : d.Valid) :
    (generateMetricsData d).map Metric.changePercent =
      [generateVariation 12.5 20 d.revenueChange,
       generateVariation 8.2 25 d.usersChange,
       generateVariation 15.3 30 d.conversionsChange,
       generateVariation 4.1 40 d.growthChange] ∧
    ∀ m ∈ generateMetricsData d, 0 < m.changePercent := by
  obtain ⟨-, -, -, -, h5, h6, h7, h8⟩ := h
  refine ⟨rfl, ?_⟩
  intro m hm
  simp only [generateMetricsData, List.mem_cons, List.not_mem_nil, or_false] at hm
  rcases hm with rfl | rfl | rfl | rfl
  · exact generateVariation_pos _ _ _ (by norm_num) (by norm_num) (by norm_num) h5.1
  · exact generateVariation_pos _ _ _ (by norm_num) (by norm_num) (by norm_num) h6.1
  · exact generateVariation_pos _ _ _ (by norm_num) (by norm_num) (by norm_num) h7.1
  · exact generateVariation_pos _ _ _ (by norm_num) (by norm_num) (by norm_num) h8.1

/-- C1 witness: the amended statement instantiated at the all-halves
draw. -/
theorem C1_witness :
    (generateMetricsData dHalf).map Metric.changePercent =
      [generateVariation 12.5 20 dHalf.revenueChange,
       generateVariation 8.2 25 dHalf.usersChange,
       generateVariation 15.3 30 dHalf.conversionsChange,
       generateVariation 4.1 40 dHalf.growthChange] ∧
    ∀ m ∈ generateMetricsData dHalf, 0 < m.changePercent :=
  C1_amended_changePercent dHalf dHalf_valid

/-- C2: every metric of every generator invocation has a non-negative
rawValue (the Math.max(0, ...) clamp of generateVariation). -/
theorem C2_rawValue_nonneg (d : Draws) :
    ∀ m ∈ generateMetricsData d, 0 ≤ m.rawValue := by
  intro m hm
  simp only [generateMetricsData, List.mem_cons, List.not_mem_nil, or_false] at hm
  rcases hm with rfl | rfl | rfl | rfl <;> exact le_max_left 0 _

theorem revenueHalf_mem : revenueHalf ∈ generateMetricsData dHalf := by
  norm_num [generateMetricsData, dHalf, generateVariation, baseMetrics, revenueHalf]

/-- C2 witness: the Revenue metric of the all-halves draw. -/
theorem C2_witness : 0 ≤ revenueHalf.rawValue :=
  C2_rawValue_nonneg dHalf revenueHalf revenueHalf_mem

/-- C3: in every generator output, trend is up exactly when
changePercent is non-negative, and neutral is never produced. -/
theorem C3_trend_iff (d : Draws) :
    ∀ m ∈ generateMetricsData d,
      ((m.trend = Trend.up ↔ 0 ≤ m.changePercent) ∧
       (m.trend = Trend.down ↔ ¬ 0 ≤ m.changePercent) ∧
       m.trend ≠ Trend.neutral) := by
  intro m hm
  simp only [generateMetricsData, List.mem_cons, List.not_mem_nil, or_false] at hm
  rcases hm with rfl | rfl | rfl | rfl <;>
    refine ⟨?_, ?_, ?_⟩ <;> dsimp only <;> split_ifs with h <;> simp [h]

/-- C3 witness: the Revenue metric of the all-halves draw. -/
theorem C3_witness :
    ((revenueHalf.trend = Trend.up ↔ 0 ≤ revenueHalf.changePercent) ∧
     (revenueHalf.trend = Trend.down ↔ ¬ 0 ≤ revenueHalf.changePercent) ∧
     revenueHalf.trend ≠ Trend.neutral) :=
  C3_trend_iff dHalf revenueHalf revenueHalf_mem

/-- C4: for every valid draw the Revenue rawValue lies in the closed
interval [52603.07, 55857.93] and never exceeds 54231 * 1.03 (in fact it
is at least 54231 * 0.97 = 52604.07). -/
theorem C4_revenue_bounds (d : Draws) (h : d.Valid) :
    ∀ m ∈ generateMetricsData d, m.title = "Revenue" →
      ((52603.07 : ℚ) ≤ m.rawValue ∧ m.rawValue ≤ 55857.93 ∧
       m.rawValue ≤ 54231 * 1.03) := by
  obtain ⟨h1, -, -, -, -, -, -, -⟩ := h
  intro m hm ht
  simp only [generateMetricsData, List.mem_cons, List.not_mem_nil, or_false] at hm
  rcases hm with rfl | rfl | rfl | rfl
  · refine ⟨?_, ?_, ?_⟩
    · have := generateVariation_lower (baseMetrics.revenue) 3 d.revenue
        (by norm_num [baseMetrics]) (by norm_num) h1.1
      calc (52603.07 : ℚ) ≤ baseMetrics.revenue * (1 - 3 / 100) := by
            norm_num [baseMetrics]
        _ ≤ _ := this
    · have := generateVariation_upper (baseMetrics.revenue) 3 d.revenue
        (by norm_num [baseMetrics]) (by norm_num) h1.2
      calc (generateVariation baseMetrics.revenue 3 d.revenue)
          ≤ baseMetrics.revenue * (1 + 3 / 100) := this
        _ ≤ (55857.93 : ℚ) := by norm_num [baseMetrics]
    · have := generateVariation_upper (baseMetrics.revenue) 3 d.revenue
        (by norm_num [baseMetrics]) (by norm_num) h1.2
      calc (generateVariation baseMetrics.revenue 3 d.revenue)
          ≤ baseMetrics.revenue * (1 + 3 / 100) := this
        _ ≤ (54231 : ℚ) * 1.03 := by norm_num [baseMetrics]
  · simp at ht
  · simp at ht
  · simp at ht

/-- C4 witness: the bounds instantiated at the Revenue metric of the
all-halves draw. -/
theorem C4_witness :
    (52603.07 : ℚ) ≤ revenueHalf.rawValue ∧
    revenueHalf.rawValue ≤ 55857.93 ∧
    revenueHalf.rawValue ≤ 54231 * 1.03 :=
  C4_revenue_bounds dHalf dHalf_valid revenueHalf revenueHalf_mem rfl

/-- C5 counterexample: the fourth title the generator emits is
"Growth %" (with a space), which is not in the enumerated set the claim
names (its last element being "Growth%"). -/
theorem C5_counterexample :
    (generateMetricsData dHalf).map Metric.title ≠
      ["Revenue", "Users", "Conversions", "Growth%"] := by decide

/-- C5 (amended): every invocation returns exactly 4 metrics whose titles,
in order, are "Revenue", "Users", "Conversions", "Growth %". -/
theorem C5_amended_titles (d : Draws) :
    (generateMetricsData d).length = 4 ∧
    (generateMetricsData d).map Metric.title =
      ["Revenue", "Users", "Conversions", "Growth %"] :=
  ⟨rfl, rfl⟩

/-! ## Claims about the polling hook -/

/-- C6: a failing fetch cycle leaves the prior metrics array unchanged,
sets error to the failure message, and sets isLoading to false. -/
theorem C6_failure_semantics (s : HookState) (msg : String) (now : ℕ)
    (h : s.mounted = true) :
    ((fetchCycle (Except.error msg) now s).metricsData.metrics =
        s.metricsData.metrics ∧
     (fetchCycle (Except.error msg) now s).metricsData.error = some msg ∧
     (fetchCycle (Except.error msg) now s).metricsData.isLoading = false) := by
  simp [fetchCycle, fetchMetricsBegin, fetchMetricsResolve, fetchStart,
    fetchFailure, h]

/-- C6 witness: a failing fetch against the freshly mounted hook state. -/
theorem C6_witness :
    ((fetchCycle (Except.error "Failed to fetch metrics") 1
        (initHookState 0)).metricsData.metrics =
      (initHookState 0).metricsData.metrics ∧
     (fetchCycle (Except.error "Failed to fetch metrics") 1
        (initHookState 0)).metricsData.error = some "Failed to fetch metrics" ∧
     (fetchCycle (Except.error "Failed to fetch metrics") 1
        (initHookState 0)).metricsData.isLoading = false) :=
  C6_failure_semantics (initHookState 0) "Failed to fetch metrics" 1 rfl

/-- C7 counterexample: the loading-phase update does preserve the metrics
and set isLoading, but it resets the previous error field to undefined
instead of preserving it. -/
theorem C7_counterexample :
    ((fetchMetricsBegin sErr).metricsData.isLoading = true ∧
     (fetchMetricsBegin sErr).metricsData.metrics = sErr.metricsData.metrics ∧
     (fetchMetricsBegin sErr).metricsData.error ≠ sErr.metricsData.error) := by
  refine ⟨rfl, rfl, ?_⟩
  simp [fetchMetricsBegin, fetchStart, sErr]

/-- C7 (amended): at the start of each fetch cycle isLoading is set to
true with the previous metrics and timestamp preserved, but the previous
error field is cleared to undefined rather than preserved. -/
theorem C7_amended_loading_phase (s : HookState) (h : s.mounted = true) :
    ((fetchMetricsBegin s).metricsData.isLoading = true ∧
     (fetchMetricsBegin s).metricsData.metrics = s.metricsData.metrics ∧
     (fetchMetricsBegin s).metricsData.timestamp = s.metricsData.timestamp ∧
     (fetchMetricsBegin s).metricsData.error = none) := by
  simp [fetchMetricsBegin, fetchStart, h]

/-- C7 witness: the amended loading-phase behaviour at a state carrying a
previous error. -/
theorem C7_witness :
    ((fetchMetricsBegin sErr).metricsData.isLoading = true ∧
     (fetchMetricsBegin sErr).metricsData.metrics = sErr.metricsData.metrics ∧
     (fetchMetricsBegin sErr).metricsData.timestamp = sErr.metricsData.timestamp ∧
     (fetchMetricsBegin sErr).metricsData.error = none) :=
  C7_amended_loading_phase sErr rfl

/-- C8: startPolling cancels the previously armed timer (when the timer
environment matches the hook state), issues exactly one immediate fetch,
and arms exactly one recurring timer at the configured interval, whose
default is 5000 ms; the timer invariant is preserved, so at most one
timer is ever active. -/
theorem C8_startPolling_cycle (i : ℕ) (env : PollEnv) (s : HookState)
    (h : TimersOk env s) :
    (defaultIntervalMs = 5000 ∧
     (startPolling i env s).1.fetchesIssued = env.fetchesIssued + 1 ∧
     (∃ id, (startPolling i env s).2.intervalId = some id ∧
        (startPolling i env s).1.activeTimers = [(id, i)]) ∧
     TimersOk (startPolling i env s).1 (startPolling i env s).2) := by
  obtain ⟨hact, hfresh⟩ := h
  cases hs : s.intervalId with
  | none =>
    have hnil : env.activeTimers = [] := by simpa [hs] using hact
    refine ⟨rfl, ?_, ?_, ?_⟩ <;>
      simp [startPolling, setIntervalE, clearIntervalE, fetchMetricsBegin,
        TimersOk, hs, hnil]
  | some id =>
    rw [hs] at hact
    have hper : ∃ per, env.activeTimers = [(id, per)] := by
      cases henv : env.activeTimers with
      | nil => rw [henv] at hact; simp at hact
      | cons t ts =>
        rw [henv] at hact
        simp at hact
        exact ⟨t.2, by simp [hact.2, Prod.ext_iff, hact.1]⟩
    obtain ⟨per, hper⟩ := hper
    refine ⟨rfl, ?_, ?_, ?_⟩ <;>
      simp [startPolling, setIntervalE, clearIntervalE, fetchMetricsBegin,
        TimersOk, hs, hper]

/-- C8 witness: starting the freshly mounted hook at the default interval. -/
theorem C8_witness :
    (defaultIntervalMs = 5000 ∧
     (startPolling defaultIntervalMs initPollEnv (initHookState 0)).1.fetchesIssued =
       initPollEnv.fetchesIssued + 1 ∧
     (∃ id, (startPolling defaultIntervalMs initPollEnv (initHookState 0)).2.intervalId =
          some id ∧
        (startPolling defaultIntervalMs initPollEnv (initHookState 0)).1.activeTimers =
          [(id, defaultIntervalMs)]) ∧
     TimersOk (startPolling defaultIntervalMs initPollEnv (initHookState 0)).1
       (startPolling defaultIntervalMs initPollEnv (initHookState 0)).2) :=
  C8_startPolling_cycle defaultIntervalMs initPollEnv (initHookState 0)
    (by simp [TimersOk, initPollEnv, initHookState])

/-- C9 counterexample: after stopPolling alone (no disposal) the mounted
flag is still set, so a fetch resolving afterwards does mutate the
snapshot: its metrics array changes. -/
theorem C9_counterexample :
    ((stopPolling initPollEnv sPolling).2.mounted = true ∧
     (fetchMetricsResolve (MockAPI.fetchMetrics (1/2) dHalf) 1
         (stopPolling initPollEnv sPolling).2).metricsData.metrics ≠
       (stopPolling initPollEnv sPolling).2.metricsData.metrics) := by
  refine ⟨rfl, ?_⟩
  simp [stopPolling, sPolling, clearIntervalE, fetchMetricsResolve,
    MockAPI.fetchMetrics, delay, fetchSuccess, initialMetricsData,
    generateMetricsData]

/-- C9 (amended): only disposal discards stale results — after the
unmount cleanup the mounted flag is cleared, and a fetch resolving
against the cleaned-up state leaves it entirely unchanged; stopPolling
alone does not discard an in-flight result. -/
theorem C9_amended_disposal_guard (env : PollEnv) (s : HookState)
    (outcome : Except String (List Metric)) (now : ℕ) :
    fetchMetricsResolve outcome now (cleanup env s).2 = (cleanup env s).2 := by
  unfold cleanup stopPolling
  cases s.intervalId <;> simp [fetchMetricsResolve]

/-- MockAPI.fetchMetrics always resolves successfully: the simulated
delay cannot reject and the generator is total. -/
theorem MockAPI.fetchMetrics_ok (latencyR : ℚ) (d : Draws) :
    MockAPI.fetchMetrics latencyR d = Except.ok (generateMetricsData d) := rfl

theorem stepRun_error_none (p : PollEnv × HookState) (st : Step)
    (h : p.2.metricsData.error = none) :
    (stepRun p st).2.metricsData.error = none := by
  cases st with
  | begin =>
    by_cases hm : p.2.mounted <;>
      simp [stepRun, fetchMetricsBegin, fetchStart, hm, h]
  | resolve latencyR d now =>
    by_cases hm : p.2.mounted <;>
      simp [stepRun, fetchMetricsResolve, MockAPI.fetchMetrics_ok,
        fetchSuccess, hm, h]
  | startP i =>
    by_cases hm : p.2.mounted <;>
      cases hi : p.2.intervalId <;>
        simp [stepRun, startPolling, fetchMetricsBegin, fetchStart,
          clearIntervalE, setIntervalE, hm, hi, h]
  | stopP =>
    cases hi : p.2.intervalId <;>
      simp [stepRun, stopPolling, clearIntervalE, hi, h]
  | dispose =>
    cases hi : p.2.intervalId <;>
      simp [stepRun, cleanup, stopPolling, clearIntervalE, hi, h]

/-- C10: MockAPI.fetchMetrics never rejects, so in any run of the hook
against the mock API — any interleaving of fetch phases, resolutions,
startPolling, stopPolling and disposal from the initial state — the
exposed error field is only ever undefined (the catch branch never
fires). -/
theorem C10_error_always_none :
    (∀ (latencyR : ℚ) (d : Draws),
       MockAPI.fetchMetrics latencyR d = Except.ok (generateMetricsData d)) ∧
    ∀ (steps : List Step) (t0 : ℕ),
      (steps.foldl stepRun (initPollEnv, initHookState t0)).2.metricsData.error =
        none := by
  refine ⟨fun latencyR d => rfl, ?_⟩
  intro steps t0
  have hrun : ∀ p : PollEnv × HookState, p.2.metricsData.error = none →
      (steps.foldl stepRun p).2.metricsData.error = none := by
    induction steps with
    | nil => intro p h; exact h
    | cons st rest ih =>
      intro p h
      exact ih _ (stepRun_error_none p st h)
  exact hrun _ rfl

end Dashboard
